import Mathlib

/-!
Shallow embedding of the stock snapshot backend (src/app_deploy.py) and
verification of its specification claims.

The embedding models the function get_stock_data_for_date (lines 27-136)
and the endpoint get_stocks (lines 142-155).  Prices are modelled as
rationals; the two-decimal rounding of Python round is modelled as
round-half-up on rationals (the rounding convention is left open by the
spec, and every concrete input used below stays away from exact half
boundaries, where all conventions agree).
-/

namespace StockBackend

/-- Models Python round(x, 2) on rationals: round half up to two decimal
places.  Used at lines 102-103 and 107-108 of app_deploy.py. -/
def round2 (x : ℚ) : ℚ := (⌊x * 100 + 1/2⌋ : ℚ) / 100

/-- One observation row of a downloaded price series.  close = none models
a row with a missing (NaN) field, which history.dropna() removes; the
close value of such a row is never used by the code. -/
structure Obs where
  date : String
  close : Option ℚ
deriving DecidableEq

/-- One SnapshotRow as appended at lines 105-111: Symbol is the ticker
with the exchange suffix removed, the price fields are rounded to two
decimals, Difference and Change are computed at lines 102-103. -/
structure Row where
  Symbol : String
  Latest : ℚ
  Previous : ℚ
  Difference : ℚ
  Change : ℚ
deriving DecidableEq

/-- Shape of the yf.download response (line 72): a MultiIndex frame keyed
by ticker when several tickers come back, or a single flat series.  The
per-ticker branch at lines 85-90 dispatches on this shape. -/
inductive BatchData where
  | keyed (m : List (String × List Obs))
  | flat (s : List Obs)
deriving DecidableEq

/-- Models history.dropna() followed by reading the date index and the
Close column: rows with a missing field are dropped (line 88/90). -/
def cleanSeries (raw : List Obs) : List (String × ℚ) :=
  raw.filterMap fun o => o.close.map fun c => (o.date, c)

/-- Models ticker.replace(".NS", "") at line 106: removes every
occurrence of the three-character pattern .NS, scanning left to right. -/
def stripNSAux : List Char → List Char
  | [] => []
  | '.' :: 'N' :: 'S' :: rest => stripNSAux rest
  | c :: rest => c :: stripNSAux rest

/-- String form of stripNSAux, the model of str.replace(".NS", ""). -/
def stripNS (t : String) : String := ⟨stripNSAux t.data⟩

/-- Sub-series extraction for one ticker (lines 85-90): in the keyed
shape the ticker must be present among the column keys (line 86),
otherwise the loop continues; in the flat shape the whole response is
used for every ticker (line 90). -/
def subSeries (data : BatchData) (ticker : String) : Option (List Obs) :=
  match data with
  | BatchData.keyed m => m.lookup ticker
  | BatchData.flat s => some s

/-- Numeric core of the loop body, lines 92-103: skip when the cleaned
series has fewer than two observations (line 92), skip when the most
recent observation date differs from the target date (lines 95-97),
otherwise produce (Latest, Previous, Difference, Change).  Difference and
Change are computed from the unrounded closes; Latest and Previous are
the closes rounded to two decimals. -/
def seriesRow (targetDate : String) (history : List (String × ℚ)) :
    Option (ℚ × ℚ × ℚ × ℚ) :=
  match history.reverse with
  | latest :: prev :: _ =>
    if latest.1 ≠ targetDate then none
    else
      let diff := round2 (latest.2 - prev.2)
      some (round2 latest.2, round2 prev.2, diff, round2 (diff / prev.2 * 100))
  | _ => none

/-- One iteration of the per-ticker loop, lines 83-115.  A none result is
the continue path: the ticker is skipped and the loop moves on (the
try/except of lines 84 and 113-115 guarantees this also for unexpected
per-ticker failures, modelled here by totality of the function). -/
def processTicker (targetDate : String) (data : BatchData) (ticker : String) :
    Option Row :=
  match subSeries data ticker with
  | none => none
  | some raw =>
    (seriesRow targetDate (cleanSeries raw)).map fun q =>
      { Symbol := stripNS ticker, Latest := q.1, Previous := q.2.1,
        Difference := q.2.2.1, Change := q.2.2.2 }

/-- Ticker list construction from the symbol CSV, lines 59-63: null
symbols are skipped, each remaining symbol gets the .NS suffix. -/
def loadTickers (csvRows : List (Option String)) : List String :=
  (csvRows.filterMap id).map fun s => s ++ ".NS"

/-- The result accumulation of the loop, lines 81-115, in encounter
order of the ticker list. -/
def buildRows (targetDate : String) (data : BatchData) (tickers : List String) :
    List Row :=
  tickers.filterMap (processTicker targetDate data)

/-- Comparison key used by df_results.sort_values(by="Difference"). -/
def diffLe (a b : Row) : Prop := a.Difference ≤ b.Difference

instance : DecidableRel diffLe :=
  fun a b => inferInstanceAs (Decidable (a.Difference ≤ b.Difference))

instance : IsTotal Row diffLe := ⟨fun a b => le_total a.Difference b.Difference⟩

instance : IsTrans Row diffLe := ⟨fun _ _ _ hab hbc => le_trans hab hbc⟩

/-- Models df_results.sort_values(by="Difference", ascending=False) at
lines 123-125.  pandas computes an argsort of the key column in
ascending order and then reverses the whole permutation (nargsort in
pandas/core/sorting.py).  On the frames considered in the concrete
claims the default numpy argsort is in its insertion-sort regime and
hence stable, so the ascending pass is modelled by a stable insertion
sort; the reversal step is exact.  Consequence: rows with equal
Difference come out in reversed encounter order. -/
def sortDescByDifference (rows : List Row) : List Row :=
  (List.insertionSort diffLe rows).reverse

/-- Input state of one call to get_stock_data_for_date: the target date
string, the current date string (line 30), whether now is at or past
15:30 (lines 34-35), the state of the cache file for the target date
(lines 28, 42-47), the state of the symbol CSV (lines 52-63), and the
provider response (line 72; none models an exception inside the try
block, caught at lines 134-136). -/
structure Env where
  targetDate : String
  today : String
  pastClose : Bool
  cacheExists : Bool
  cacheCorrupt : Bool
  cacheContent : List Row
  csvExists : Bool
  csvRows : List (Option String)
  batch : Option BatchData

/-- Return value of get_stock_data_for_date: an uncaught exception
(raise), the string "FILE_NOT_FOUND" (line 53), a DataFrame with the
given rows, or None (line 136). -/
inductive PyResult where
  | raise
  | fileNotFound
  | frame (rows : List Row)
  | noneResult
deriving DecidableEq

/-- Observable outcome of one call: the returned value plus whether the
cache file was read, whether a cache file was written, whether the
symbol CSV was read, and whether the provider download was issued. -/
structure Outcome where
  result : PyResult
  readCache : Bool
  wroteCache : Bool
  readCsv : Bool
  calledProvider : Bool
deriving DecidableEq

/-- The cache read condition of lines 40-47: for today the cache is used
only at or past market close; for any other date an existing file is
always used. -/
def cacheHit (env : Env) : Bool :=
  if env.targetDate == env.today then env.pastClose && env.cacheExists
  else env.cacheExists

/-- Model of get_stock_data_for_date, lines 27-136.  On a cache hit the
file is read back verbatim (lines 43, 47); a corrupt cache file makes
pd.read_excel raise, and that read sits outside the try block, so the
exception propagates to the caller.  Otherwise the CSV existence check
(lines 52-53) runs, then the build: ticker list, download, per-ticker
loop, and finally the empty check, descending sort and cache write
policy of lines 122-132 (write only when the target date is not today
or the market has closed, line 127). -/
def get_stock_data_for_date (env : Env) : Outcome :=
  if cacheHit env then
    if env.cacheCorrupt then ⟨PyResult.raise, true, false, false, false⟩
    else ⟨PyResult.frame env.cacheContent, true, false, false, false⟩
  else if !env.csvExists then ⟨PyResult.fileNotFound, false, false, false, false⟩
  else
    match env.batch with
    | none => ⟨PyResult.noneResult, false, false, true, true⟩
    | some data =>
      let results := buildRows env.targetDate data (loadTickers env.csvRows)
      if results.isEmpty then ⟨PyResult.frame [], false, false, true, true⟩
      else
        let shouldWrite := env.targetDate != env.today || env.pastClose
        ⟨PyResult.frame (sortDescByDifference results), false, shouldWrite, true, true⟩

/-- HTTP-level outcome of the /api/stocks handler: a data payload, a
structured error with a status code, the no-data payload, or an
unhandled exception escaping the handler (Flask then produces a generic
500, not a handler-built response). -/
inductive HttpResponse where
  | payload (rows : List Row)
  | errorResp (status : Nat) (msg : String)
  | noData
  | crashed
deriving DecidableEq

/-- Model of the /api/stocks handler, lines 142-155.  The handler has no
try/except, so an exception raised by get_stock_data_for_date escapes.
The check at line 147 compares df with the sentinel string using ==:
when df is a DataFrame (empty or not) this comparison is elementwise and
the if statement then forces DataFrame truthiness, which raises
ValueError inside the handler; when df is the sentinel string the test
is True and the 404 error is returned; when df is None the test is False
and the final no-data response is returned (line 150 rejects None). -/
def get_stocks (env : Env) : HttpResponse :=
  match (get_stock_data_for_date env).result with
  | PyResult.raise => HttpResponse.crashed
  | PyResult.fileNotFound => HttpResponse.errorResp 404 "CSV file missing"
  | PyResult.frame _ => HttpResponse.crashed
  | PyResult.noneResult => HttpResponse.noData

/-- Exclusion condition of the loop, lines 85-97: the sub-series is
absent from the keyed response, or the cleaned series has fewer than two
observations, or the most recent observation date is not the target
date. -/
def excludedTicker (td : String) (data : BatchData) (t : String) : Bool :=
  match subSeries data t with
  | none => true
  | some raw =>
    match (cleanSeries raw).reverse with
    | latest :: _ :: _ => latest.1 != td
    | _ => true

/-!  Claim theorems  -/

/-- C3: whenever the target date equals today and the current time is
before market close, the snapshot function neither reads an existing
cache file for that date nor writes one; the snapshot is always rebuilt.
Each call is modelled by one evaluation of the (stateless) function, so
the statement covers repeated calls as well. -/
theorem C3_intraday_never_touches_cache (env : Env)
    (h1 : env.targetDate = env.today) (h2 : env.pastClose = false) :
    (get_stock_data_for_date env).readCache = false ∧
    (get_stock_data_for_date env).wroteCache = false := by
  have hch : cacheHit env = false := by simp [cacheHit, h1, h2]
  simp only [get_stock_data_for_date, hch, Bool.false_eq_true, if_false]
  by_cases hcsv : env.csvExists
  · cases hb : env.batch with
    | none => simp [hcsv, hb]
    | some data =>
      simp only [hcsv, Bool.not_true, Bool.false_eq_true, if_false, hb]
      split
      · exact ⟨rfl, rfl⟩
      · refine ⟨rfl, ?_⟩
        show (env.targetDate != env.today || env.pastClose) = false
        simp [h1, h2]
  · simp [hcsv]

/-- Witness for C3 at a concrete environment: today before close, with a
cache file present; the call neither reads nor writes it. -/
theorem C3_intraday_never_touches_cache_witness :
    (get_stock_data_for_date
      { targetDate := "2024-01-05", today := "2024-01-05", pastClose := false,
        cacheExists := true, cacheCorrupt := false, cacheContent := [],
        csvExists := true, csvRows := [some "AAA"], batch := none }).readCache = false ∧
    (get_stock_data_for_date
      { targetDate := "2024-01-05", today := "2024-01-05", pastClose := false,
        cacheExists := true, cacheCorrupt := false, cacheContent := [],
        csvExists := true, csvRows := [some "AAA"], batch := none }).wroteCache = false :=
  C3_intraday_never_touches_cache _ rfl rfl

/-- C4: whenever the target date is not today and a (parseable) cache
file for that date exists, the function returns the persisted snapshot
verbatim, reads the cache, and performs no CSV read, no provider call
and no cache write: the build pipeline is never invoked. -/
theorem C4_past_cache_hit_returns_verbatim (env : Env)
    (h1 : env.targetDate ≠ env.today) (h2 : env.cacheExists = true)
    (h3 : env.cacheCorrupt = false) :
    get_stock_data_for_date env =
      ⟨PyResult.frame env.cacheContent, true, false, false, false⟩ := by
  have hch : cacheHit env = true := by simp [cacheHit, h1, h2]
  simp [get_stock_data_for_date, hch, h3]

/-- Witness for C4 at a concrete environment: a past date with a cached
snapshot is returned verbatim with no other effect. -/
theorem C4_past_cache_hit_returns_verbatim_witness :
    get_stock_data_for_date
      { targetDate := "2024-01-04", today := "2024-01-05", pastClose := true,
        cacheExists := true, cacheCorrupt := false,
        cacheContent := [{ Symbol := "AAA", Latest := 10, Previous := 9,
                           Difference := 1, Change := 1111/100 }],
        csvExists := true, csvRows := [some "AAA"], batch := none } =
      ⟨PyResult.frame [{ Symbol := "AAA", Latest := 10, Previous := 9,
                         Difference := 1, Change := 1111/100 }],
       true, false, false, false⟩ :=
  C4_past_cache_hit_returns_verbatim _ (by decide) rfl rfl

/-- C9: whenever the cache read condition holds, the snapshot is served
from the cache before the CSV existence check runs, so the missing-source
result is never produced on a cache hit, regardless of whether the
symbol CSV exists; with a parseable cache file the cached rows are
returned verbatim without reading the CSV. -/
theorem C9_cache_hit_masks_missing_source (env : Env)
    (h : cacheHit env = true) :
    (get_stock_data_for_date env).result ≠ PyResult.fileNotFound ∧
    (env.cacheCorrupt = false →
      get_stock_data_for_date env =
        ⟨PyResult.frame env.cacheContent, true, false, false, false⟩) := by
  constructor
  · simp only [get_stock_data_for_date, h, if_true]
    cases hc : env.cacheCorrupt <;> simp
  · intro hc
    simp [get_stock_data_for_date, h, hc]

/-- Witness for C9 at a concrete environment in which the symbol CSV is
absent: the cached snapshot is still served and the missing-source
result does not occur. -/
theorem C9_cache_hit_masks_missing_source_witness :
    (get_stock_data_for_date
      { targetDate := "2024-01-04", today := "2024-01-05", pastClose := false,
        cacheExists := true, cacheCorrupt := false,
        cacheContent := [{ Symbol := "AAA", Latest := 10, Previous := 9,
                           Difference := 1, Change := 1111/100 }],
        csvExists := false, csvRows := [], batch := none }).result ≠
      PyResult.fileNotFound ∧
    get_stock_data_for_date
      { targetDate := "2024-01-04", today := "2024-01-05", pastClose := false,
        cacheExists := true, cacheCorrupt := false,
        cacheContent := [{ Symbol := "AAA", Latest := 10, Previous := 9,
                           Difference := 1, Change := 1111/100 }],
        csvExists := false, csvRows := [], batch := none } =
      ⟨PyResult.frame [{ Symbol := "AAA", Latest := 10, Previous := 9,
                         Difference := 1, Change := 1111/100 }],
       true, false, false, false⟩ :=
  ⟨(C9_cache_hit_masks_missing_source _ (by decide)).1,
   (C9_cache_hit_masks_missing_source _ (by decide)).2 rfl⟩

/-- C7: whenever the symbol CSV is absent and no cache hit short-circuits
the request, the function returns the missing-source result, which the
stocks endpoint surfaces as a 404 with the error message CSV file
missing, a response distinct from the no-data response. -/
theorem C7_missing_csv_surfaces_404 (env : Env)
    (h1 : cacheHit env = false) (h2 : env.csvExists = false) :
    (get_stock_data_for_date env).result = PyResult.fileNotFound ∧
    get_stocks env = HttpResponse.errorResp 404 "CSV file missing" ∧
    HttpResponse.errorResp 404 "CSV file missing" ≠ HttpResponse.noData := by
  have hr : (get_stock_data_for_date env).result = PyResult.fileNotFound := by
    simp [get_stock_data_for_date, h1, h2]
  exact ⟨hr, by simp [get_stocks, hr], by simp⟩

/-- Witness for C7 at a concrete environment with no cache file and no
symbol CSV. -/
theorem C7_missing_csv_surfaces_404_witness :
    (get_stock_data_for_date
      { targetDate := "2024-01-04", today := "2024-01-05", pastClose := false,
        cacheExists := false, cacheCorrupt := false, cacheContent := [],
        csvExists := false, csvRows := [], batch := none }).result =
      PyResult.fileNotFound ∧
    get_stocks
      { targetDate := "2024-01-04", today := "2024-01-05", pastClose := false,
        cacheExists := false, cacheCorrupt := false, cacheContent := [],
        csvExists := false, csvRows := [], batch := none } =
      HttpResponse.errorResp 404 "CSV file missing" ∧
    HttpResponse.errorResp 404 "CSV file missing" ≠ HttpResponse.noData :=
  C7_missing_csv_surfaces_404 _ (by decide) rfl

/-- C5: a ticker whose sub-series is absent, empty, shorter than two
observations, or whose most recent observation date is not the target
date, is excluded from the snapshot: its loop iteration produces no row,
and the rest of the batch is processed exactly as if the ticker were not
there (the build function is total, so no error is raised and the batch
is never aborted). -/
theorem C5_bad_series_excluded_without_abort (td : String) (data : BatchData)
    (t : String) (rest : List String)
    (h : excludedTicker td data t = true) :
    processTicker td data t = none ∧
    buildRows td data (t :: rest) = buildRows td data rest := by
  have hp : processTicker td data t = none := by
    unfold excludedTicker at h
    unfold processTicker seriesRow
    cases hs : subSeries data t with
    | none => simp
    | some raw =>
      simp only [hs] at h ⊢
      cases hr : (cleanSeries raw).reverse with
      | nil => simp [hr]
      | cons latest tl =>
        cases tl with
        | nil => simp [hr]
        | cons prev tl2 =>
          simp only [hr] at h ⊢
          simp [bne_iff_ne.mp h]
  exact ⟨hp, by simp [buildRows, List.filterMap_cons, hp]⟩

/-- Witness for C5 at a concrete environment: a ticker whose series ends
one session before the target date is excluded and the remaining batch
result is unchanged. -/
theorem C5_bad_series_excluded_without_abort_witness :
    processTicker "2024-01-05"
      (BatchData.keyed [("AAA.NS",
        [⟨"2024-01-03", some 10⟩, ⟨"2024-01-04", some 11⟩])]) "AAA.NS" = none ∧
    buildRows "2024-01-05"
      (BatchData.keyed [("AAA.NS",
        [⟨"2024-01-03", some 10⟩, ⟨"2024-01-04", some 11⟩])]) ["AAA.NS", "BBB.NS"] =
    buildRows "2024-01-05"
      (BatchData.keyed [("AAA.NS",
        [⟨"2024-01-03", some 10⟩, ⟨"2024-01-04", some 11⟩])]) ["BBB.NS"] :=
  C5_bad_series_excluded_without_abort _ _ _ _ (by decide)

/-- C6: when the build survives no ticker, the function returns an empty
frame (the EmptyResult, distinct from the None returned on a fetch
failure) and writes no cache file, regardless of the write policy. -/
theorem C6_empty_result_never_persisted (env : Env) (data : BatchData)
    (h1 : cacheHit env = false) (h2 : env.csvExists = true)
    (h3 : env.batch = some data)
    (h4 : buildRows env.targetDate data (loadTickers env.csvRows) = []) :
    get_stock_data_for_date env = ⟨PyResult.frame [], false, false, true, true⟩ ∧
    PyResult.frame [] ≠ PyResult.noneResult := by
  refine ⟨?_, by simp⟩
  simp [get_stock_data_for_date, h1, h2, h3, h4]

/-- Witness for C6 at a concrete environment with a past target date and
the market closed, so the write policy would permit persisting: the
fetched series ends before the target date, every ticker is excluded,
the empty frame is returned and no cache file is written. -/
theorem C6_empty_result_never_persisted_witness :
    get_stock_data_for_date
      { targetDate := "2024-01-05", today := "2024-06-01", pastClose := true,
        cacheExists := false, cacheCorrupt := false, cacheContent := [],
        csvExists := true, csvRows := [some "AAA"],
        batch := some (BatchData.keyed [("AAA.NS",
          [⟨"2024-01-03", some 10⟩, ⟨"2024-01-04", some 11⟩])]) } =
      ⟨PyResult.frame [], false, false, true, true⟩ ∧
    PyResult.frame [] ≠ PyResult.noneResult :=
  C6_empty_result_never_persisted _
    (BatchData.keyed [("AAA.NS", [⟨"2024-01-03", some 10⟩, ⟨"2024-01-04", some 11⟩])])
    (by decide) rfl rfl (by decide)

/-- Concrete evaluation of one loop iteration on unrounded closes 0.504
and 1.506; shared by the counterexample and the witness of claim C1. -/
lemma C1_concrete_eval :
    processTicker "2024-01-05"
      (BatchData.flat [⟨"2024-01-04", some (504/1000)⟩,
                       ⟨"2024-01-05", some (1506/1000)⟩]) "AAA.NS" =
    some { Symbol := "AAA", Latest := 151/100, Previous := 1/2,
           Difference := 1, Change := 19841/100 } := by
  have hstrip : stripNS "AAA.NS" = "AAA" := by decide
  have h1 : round2 ((1506:ℚ)/1000) = 151/100 := by norm_num [round2]
  have h2 : round2 ((504:ℚ)/1000) = 1/2 := by norm_num [round2]
  have h3 : round2 ((1506:ℚ)/1000 - 504/1000) = 1 := by norm_num [round2]
  have h4 : round2 ((1:ℚ) / (504/1000) * 100) = 19841/100 := by norm_num [round2]
  have e : processTicker "2024-01-05"
      (BatchData.flat [⟨"2024-01-04", some (504/1000)⟩,
                       ⟨"2024-01-05", some (1506/1000)⟩]) "AAA.NS" =
      some { Symbol := stripNS "AAA.NS",
             Latest := round2 ((1506:ℚ)/1000),
             Previous := round2 ((504:ℚ)/1000),
             Difference := round2 ((1506:ℚ)/1000 - 504/1000),
             Change := round2 (round2 ((1506:ℚ)/1000 - 504/1000) / ((504:ℚ)/1000) * 100) } :=
    rfl
  rw [e, hstrip, h3, h1, h2, h4]

/-- C1 counterexample: a snapshot row whose stored Difference is not
round(Latest - Previous, 2) and whose stored Change is not
round(Difference / Previous * 100, 2) when Latest and Previous denote
the stored (rounded) values of that same row.  With unrounded closes
0.504 and 1.506 on consecutive sessions, the code stores Latest = 1.51,
Previous = 0.50, Difference = round(1.506 - 0.504, 2) = 1.00 and
Change = round(1.00 / 0.504 * 100, 2) = 198.41, but the formulas applied
to the stored values give 1.01 and 200 respectively. -/
theorem C1_counterexample :
    ∃ row : Row,
      buildRows "2024-01-05"
        (BatchData.flat [⟨"2024-01-04", some (504/1000)⟩,
                         ⟨"2024-01-05", some (1506/1000)⟩])
        ["AAA.NS"] = [row] ∧
      row.Difference ≠ round2 (row.Latest - row.Previous) ∧
      row.Change ≠ round2 (row.Difference / row.Previous * 100) := by
  refine ⟨{ Symbol := "AAA", Latest := 151/100, Previous := 1/2,
            Difference := 1, Change := 19841/100 }, ?_, ?_, ?_⟩
  · rw [buildRows, List.filterMap_cons, C1_concrete_eval]
    rfl
  · norm_num [round2]
  · norm_num [round2]

/-- C1 as amended: for every row produced by a loop iteration, the
stored Difference equals round(rawLatest - rawPrevious, 2) and the
stored Change equals round(Difference / rawPrevious * 100, 2), where
rawLatest and rawPrevious are the unrounded closes of the last two clean
observations; the stored Latest and Previous are those raw values
rounded to two decimals (so the formulas of the original claim, applied
to the stored values, need not hold). -/
theorem C1_fields_derived_from_raw_closes (td : String) (data : BatchData)
    (t : String) (row : Row) (h : processTicker td data t = some row) :
    ∃ raw latest prev others,
      subSeries data t = some raw ∧
      (cleanSeries raw).reverse = latest :: prev :: others ∧
      latest.1 = td ∧
      row.Latest = round2 latest.2 ∧
      row.Previous = round2 prev.2 ∧
      row.Difference = round2 (latest.2 - prev.2) ∧
      row.Change = round2 (row.Difference / prev.2 * 100) := by
  unfold processTicker at h
  split at h
  · exact absurd h (by simp)
  · rename_i raw hs
    unfold seriesRow at h
    split at h
    · rename_i latest prev others hr
      split at h
      · exact absurd h (by simp)
      · rename_i hd
        simp only [Option.map_some', Option.some.injEq] at h
        refine ⟨raw, latest, prev, others, hs, hr, not_not.mp hd, ?_⟩
        rw [← h]
        exact ⟨rfl, rfl, rfl, rfl⟩
    · exact absurd h (by simp)

/-- Witness for C1 as amended, at the concrete input of the
counterexample: the row fields are exactly the rounded raw closes and
the two derived quantities computed from the raw values. -/
theorem C1_fields_derived_from_raw_closes_witness :
    ∃ raw latest prev others,
      subSeries (BatchData.flat [⟨"2024-01-04", some (504/1000)⟩,
                                 ⟨"2024-01-05", some (1506/1000)⟩]) "AAA.NS" = some raw ∧
      (cleanSeries raw).reverse = latest :: prev :: others ∧
      latest.1 = "2024-01-05" ∧
      ({ Symbol := "AAA", Latest := 151/100, Previous := 1/2,
         Difference := 1, Change := 19841/100 } : Row).Latest = round2 latest.2 ∧
      ({ Symbol := "AAA", Latest := 151/100, Previous := 1/2,
         Difference := 1, Change := 19841/100 } : Row).Previous = round2 prev.2 ∧
      ({ Symbol := "AAA", Latest := 151/100, Previous := 1/2,
         Difference := 1, Change := 19841/100 } : Row).Difference =
        round2 (latest.2 - prev.2) ∧
      ({ Symbol := "AAA", Latest := 151/100, Previous := 1/2,
         Difference := 1, Change := 19841/100 } : Row).Change =
        round2 (({ Symbol := "AAA", Latest := 151/100, Previous := 1/2,
                   Difference := 1, Change := 19841/100 } : Row).Difference / prev.2 * 100) :=
  C1_fields_derived_from_raw_closes "2024-01-05"
    (BatchData.flat [⟨"2024-01-04", some (504/1000)⟩,
                     ⟨"2024-01-05", some (1506/1000)⟩]) "AAA.NS"
    { Symbol := "AAA", Latest := 151/100, Previous := 1/2,
      Difference := 1, Change := 19841/100 }
    C1_concrete_eval

/-- Membership in a flat-shape build determines every numeric field of
the row from the single shared series; only Symbol depends on the
ticker. -/
lemma mem_buildRows_flat {td : String} {s : List Obs} {tickers : List String}
    {r : Row} (h : r ∈ buildRows td (BatchData.flat s) tickers) :
    ∃ q, seriesRow td (cleanSeries s) = some q ∧
      r.Latest = q.1 ∧ r.Previous = q.2.1 ∧
      r.Difference = q.2.2.1 ∧ r.Change = q.2.2.2 := by
  unfold buildRows at h
  obtain ⟨t, _, hp⟩ := List.mem_filterMap.mp h
  simp only [processTicker, subSeries] at hp
  cases hq : seriesRow td (cleanSeries s) with
  | none => rw [hq] at hp; simp at hp
  | some q =>
    rw [hq] at hp
    simp only [Option.map_some', Option.some.injEq] at hp
    exact ⟨q, rfl, by rw [← hp], by rw [← hp], by rw [← hp], by rw [← hp]⟩

/-- C10: when the batch response is a single flat series, every ticker
is matched against that same whole series, so any two rows surviving the
exclusion rules carry identical Latest, Previous, Difference and Change
values. -/
theorem C10_flat_response_identical_values (td : String) (s : List Obs)
    (tickers : List String) (r1 r2 : Row)
    (h1 : r1 ∈ buildRows td (BatchData.flat s) tickers)
    (h2 : r2 ∈ buildRows td (BatchData.flat s) tickers) :
    r1.Latest = r2.Latest ∧ r1.Previous = r2.Previous ∧
    r1.Difference = r2.Difference ∧ r1.Change = r2.Change := by
  obtain ⟨q, hq, a1, a2, a3, a4⟩ := mem_buildRows_flat h1
  obtain ⟨q2, hq2, b1, b2, b3, b4⟩ := mem_buildRows_flat h2
  rw [hq, Option.some.injEq] at hq2
  subst hq2
  exact ⟨a1.trans b1.symm, a2.trans b2.symm, a3.trans b3.symm, a4.trans b4.symm⟩

/-- Concrete two-ticker build over one flat series; shared by the
witness of claim C10. -/
lemma C10_concrete_build :
    buildRows "2024-01-05"
      (BatchData.flat [⟨"2024-01-04", some 10⟩, ⟨"2024-01-05", some 11⟩])
      ["AAA.NS", "BBB.NS"] =
    [{ Symbol := "AAA", Latest := 11, Previous := 10, Difference := 1, Change := 10 },
     { Symbol := "BBB", Latest := 11, Previous := 10, Difference := 1, Change := 10 }] := by
  have g1 : round2 (11:ℚ) = 11 := by norm_num [round2]
  have g2 : round2 (10:ℚ) = 10 := by norm_num [round2]
  have g3 : round2 ((11:ℚ) - 10) = 1 := by norm_num [round2]
  have g4 : round2 ((1:ℚ) / 10 * 100) = 10 := by norm_num [round2]
  have sA : stripNS "AAA.NS" = "AAA" := by decide
  have sB : stripNS "BBB.NS" = "BBB" := by decide
  have e : ∀ t : String,
      processTicker "2024-01-05"
        (BatchData.flat [⟨"2024-01-04", some 10⟩, ⟨"2024-01-05", some 11⟩]) t =
      some { Symbol := stripNS t, Latest := round2 (11:ℚ),
             Previous := round2 (10:ℚ), Difference := round2 ((11:ℚ) - 10),
             Change := round2 (round2 ((11:ℚ) - 10) / (10:ℚ) * 100) } :=
    fun _ => rfl
  simp only [buildRows, List.filterMap_cons, List.filterMap_nil, e, g3, g1, g2, g4,
    sA, sB]

/-- Witness for C10 at a concrete flat response with two tickers: both
surviving rows have the same numeric fields. -/
theorem C10_flat_response_identical_values_witness :
    ({ Symbol := "AAA", Latest := 11, Previous := 10,
       Difference := 1, Change := 10 } : Row).Latest =
      ({ Symbol := "BBB", Latest := 11, Previous := 10,
         Difference := 1, Change := 10 } : Row).Latest ∧
    ({ Symbol := "AAA", Latest := 11, Previous := 10,
       Difference := 1, Change := 10 } : Row).Previous =
      ({ Symbol := "BBB", Latest := 11, Previous := 10,
         Difference := 1, Change := 10 } : Row).Previous ∧
    ({ Symbol := "AAA", Latest := 11, Previous := 10,
       Difference := 1, Change := 10 } : Row).Difference =
      ({ Symbol := "BBB", Latest := 11, Previous := 10,
         Difference := 1, Change := 10 } : Row).Difference ∧
    ({ Symbol := "AAA", Latest := 11, Previous := 10,
       Difference := 1, Change := 10 } : Row).Change =
      ({ Symbol := "BBB", Latest := 11, Previous := 10,
         Difference := 1, Change := 10 } : Row).Change :=
  C10_flat_response_identical_values "2024-01-05"
    [⟨"2024-01-04", some 10⟩, ⟨"2024-01-05", some 11⟩]
    ["AAA.NS", "BBB.NS"] _ _
    (by rw [C10_concrete_build]; exact List.mem_cons_self _ _)
    (by rw [C10_concrete_build]; exact List.mem_cons_of_mem _ (List.mem_cons_self _ _))

/-- Inserting a row whose Difference equals k in front of all strictly
larger keys puts it before every other row with key k: the key-k
subsequence gains the new row at its head. -/
lemma filter_orderedInsert_eq_key (k : ℚ) (a : Row) (l : List Row)
    (ha : a.Difference = k) :
    (List.orderedInsert diffLe a l).filter (fun r => r.Difference == k) =
      a :: l.filter (fun r => r.Difference == k) := by
  induction l with
  | nil => simp [List.orderedInsert, List.filter_cons, ha]
  | cons b t ih =>
    by_cases hab : diffLe a b
    · rw [List.orderedInsert, if_pos hab, List.filter_cons, List.filter_cons]
      simp [ha]
    · rw [List.orderedInsert, if_neg hab]
      have hb : ¬ b.Difference = k := by
        intro hbk
        exact hab (le_of_eq (ha.trans hbk.symm))
      rw [List.filter_cons, List.filter_cons]
      simp [hb, ih]

/-- Inserting a row whose Difference is not k leaves the key-k
subsequence unchanged. -/
lemma filter_orderedInsert_ne_key (k : ℚ) (a : Row) (l : List Row)
    (ha : ¬ a.Difference = k) :
    (List.orderedInsert diffLe a l).filter (fun r => r.Difference == k) =
      l.filter (fun r => r.Difference == k) := by
  induction l with
  | nil => simp [List.orderedInsert, List.filter_cons, ha]
  | cons b t ih =>
    by_cases hab : diffLe a b
    · rw [List.orderedInsert, if_pos hab, List.filter_cons, List.filter_cons]
      simp [ha]
    · rw [List.orderedInsert, if_neg hab, List.filter_cons, List.filter_cons, ih]

/-- The ascending insertion sort is stable: it preserves the relative
order of rows with equal Difference, so the key-k subsequence of the
sorted list is exactly the key-k subsequence of the input. -/
lemma filter_insertionSort_key (k : ℚ) (l : List Row) :
    (List.insertionSort diffLe l).filter (fun r => r.Difference == k) =
      l.filter (fun r => r.Difference == k) := by
  induction l with
  | nil => rfl
  | cons a t ih =>
    rw [List.insertionSort]
    by_cases ha : a.Difference = k
    · rw [filter_orderedInsert_eq_key k a _ ha, ih, List.filter_cons]
      simp [ha]
    · rw [filter_orderedInsert_ne_key k a _ ha, ih, List.filter_cons]
      simp [ha]

/-- C2 counterexample: a fresh build whose two rows have equal
Difference comes back in reversed encounter order, contradicting the
stability clause of the claim.  The build encounters the rows as
AAA then BBB; the returned snapshot is BBB then AAA. -/
theorem C2_counterexample :
    ∃ rA rB : Row, rA ≠ rB ∧ rA.Difference = rB.Difference ∧
      buildRows "2024-01-05"
        (BatchData.keyed
          [("AAA.NS", [⟨"2024-01-04", some 10⟩, ⟨"2024-01-05", some 11⟩]),
           ("BBB.NS", [⟨"2024-01-04", some 20⟩, ⟨"2024-01-05", some 21⟩])])
        (loadTickers [some "AAA", some "BBB"]) = [rA, rB] ∧
      (get_stock_data_for_date
        { targetDate := "2024-01-05", today := "2024-01-05", pastClose := false,
          cacheExists := false, cacheCorrupt := false, cacheContent := [],
          csvExists := true, csvRows := [some "AAA", some "BBB"],
          batch := some (BatchData.keyed
            [("AAA.NS", [⟨"2024-01-04", some 10⟩, ⟨"2024-01-05", some 11⟩]),
             ("BBB.NS", [⟨"2024-01-04", some 20⟩, ⟨"2024-01-05", some 21⟩])]) }).result =
        PyResult.frame [rB, rA] := by
  have g1 : round2 (11:ℚ) = 11 := by norm_num [round2]
  have g2 : round2 (10:ℚ) = 10 := by norm_num [round2]
  have g3 : round2 ((11:ℚ) - 10) = 1 := by norm_num [round2]
  have g4 : round2 ((1:ℚ) / 10 * 100) = 10 := by norm_num [round2]
  have g5 : round2 (21:ℚ) = 21 := by norm_num [round2]
  have g6 : round2 (20:ℚ) = 20 := by norm_num [round2]
  have g7 : round2 ((21:ℚ) - 20) = 1 := by norm_num [round2]
  have g8 : round2 ((1:ℚ) / 20 * 100) = 5 := by norm_num [round2]
  have sA : stripNS "AAA.NS" = "AAA" := by decide
  have sB : stripNS "BBB.NS" = "BBB" := by decide
  have eA : processTicker "2024-01-05"
      (BatchData.keyed
        [("AAA.NS", [⟨"2024-01-04", some 10⟩, ⟨"2024-01-05", some 11⟩]),
         ("BBB.NS", [⟨"2024-01-04", some 20⟩, ⟨"2024-01-05", some 21⟩])]) "AAA.NS" =
      some { Symbol := stripNS "AAA.NS", Latest := round2 (11:ℚ),
             Previous := round2 (10:ℚ), Difference := round2 ((11:ℚ) - 10),
             Change := round2 (round2 ((11:ℚ) - 10) / (10:ℚ) * 100) } := rfl
  have eB : processTicker "2024-01-05"
      (BatchData.keyed
        [("AAA.NS", [⟨"2024-01-04", some 10⟩, ⟨"2024-01-05", some 11⟩]),
         ("BBB.NS", [⟨"2024-01-04", some 20⟩, ⟨"2024-01-05", some 21⟩])]) "BBB.NS" =
      some { Symbol := stripNS "BBB.NS", Latest := round2 (21:ℚ),
             Previous := round2 (20:ℚ), Difference := round2 ((21:ℚ) - 20),
             Change := round2 (round2 ((21:ℚ) - 20) / (20:ℚ) * 100) } := rfl
  have hA2 : ("AAA" ++ ".NS" : String) = "AAA.NS" := rfl
  have hB2 : ("BBB" ++ ".NS" : String) = "BBB.NS" := rfl
  have hbuild : buildRows "2024-01-05"
      (BatchData.keyed
        [("AAA.NS", [⟨"2024-01-04", some 10⟩, ⟨"2024-01-05", some 11⟩]),
         ("BBB.NS", [⟨"2024-01-04", some 20⟩, ⟨"2024-01-05", some 21⟩])])
      (loadTickers [some "AAA", some "BBB"]) =
      [{ Symbol := "AAA", Latest := 11, Previous := 10, Difference := 1, Change := 10 },
       { Symbol := "BBB", Latest := 21, Previous := 20, Difference := 1, Change := 5 }] := by
    simp only [loadTickers, List.filterMap_cons, List.filterMap_nil, id,
      List.map_cons, List.map_nil, buildRows, hA2, hB2, eA, eB,
      g3, g1, g2, g4, g7, g5, g6, g8, sA, sB]
  have hsort : sortDescByDifference
      [{ Symbol := "AAA", Latest := 11, Previous := 10, Difference := 1, Change := 10 },
       { Symbol := "BBB", Latest := 21, Previous := 20, Difference := 1, Change := 5 }] =
      [{ Symbol := "BBB", Latest := 21, Previous := 20, Difference := 1, Change := 5 },
       { Symbol := "AAA", Latest := 11, Previous := 10, Difference := 1, Change := 10 }] := by
    decide
  refine ⟨{ Symbol := "AAA", Latest := 11, Previous := 10, Difference := 1, Change := 10 },
          { Symbol := "BBB", Latest := 21, Previous := 20, Difference := 1, Change := 5 },
          by decide, rfl, hbuild, ?_⟩
  have hstep : (get_stock_data_for_date
      { targetDate := "2024-01-05", today := "2024-01-05", pastClose := false,
        cacheExists := false, cacheCorrupt := false, cacheContent := [],
        csvExists := true, csvRows := [some "AAA", some "BBB"],
        batch := some (BatchData.keyed
          [("AAA.NS", [⟨"2024-01-04", some 10⟩, ⟨"2024-01-05", some 11⟩]),
           ("BBB.NS", [⟨"2024-01-04", some 20⟩, ⟨"2024-01-05", some 21⟩])]) }).result =
      PyResult.frame (sortDescByDifference (buildRows "2024-01-05"
        (BatchData.keyed
          [("AAA.NS", [⟨"2024-01-04", some 10⟩, ⟨"2024-01-05", some 11⟩]),
           ("BBB.NS", [⟨"2024-01-04", some 20⟩, ⟨"2024-01-05", some 21⟩])])
        (loadTickers [some "AAA", some "BBB"]))) := rfl
  rw [hstep, hbuild, hsort]

/-- C2 as amended: a fresh snapshot is ordered by Difference descending
and is a permutation of the rows in encounter order, but rows with equal
Difference appear in reversed encounter order, not original order (the
sort reverses a stable ascending pass, as pandas sort_values with
ascending set to False does). -/
theorem C2_sorted_desc_ties_reversed (rows : List Row) :
    List.Sorted (fun a b : Row => b.Difference ≤ a.Difference)
      (sortDescByDifference rows) ∧
    (sortDescByDifference rows).Perm rows ∧
    ∀ k : ℚ, (sortDescByDifference rows).filter (fun r => r.Difference == k) =
      (rows.filter (fun r => r.Difference == k)).reverse := by
  refine ⟨?_, ?_, ?_⟩
  · unfold sortDescByDifference
    have hs := List.sorted_insertionSort diffLe rows
    exact (List.pairwise_reverse).mpr hs
  · exact (List.reverse_perm _).trans (List.perm_insertionSort diffLe rows)
  · intro k
    unfold sortDescByDifference
    rw [List.filter_reverse, filter_insertionSort_key]

/-- C8 exhibits a code bug: uncaught exceptions escape the stocks
handler, which has no try/except.  First conjunct: for a past target
date with an unparsable cache file, pd.read_excel raises at line 47,
which sits outside the try block of get_stock_data_for_date, and the
exception escapes the handler.  Second conjunct: on a successful build
the function returns a DataFrame, and the check at line 147 compares it
with the sentinel string using ==; that comparison is elementwise and
the if statement then forces DataFrame truthiness, which raises
ValueError inside the handler.  In both cases the handler produces no
structured response, contradicting the claim that every failure is
caught and converted. -/
theorem C8_exceptions_escape_handler :
    get_stocks
      { targetDate := "2024-01-04", today := "2024-01-05", pastClose := true,
        cacheExists := true, cacheCorrupt := true, cacheContent := [],
        csvExists := true, csvRows := [], batch := none } =
      HttpResponse.crashed ∧
    get_stocks
      { targetDate := "2024-01-05", today := "2024-01-06", pastClose := false,
        cacheExists := false, cacheCorrupt := false, cacheContent := [],
        csvExists := true, csvRows := [some "AAA"],
        batch := some (BatchData.flat
          [⟨"2024-01-04", some 10⟩, ⟨"2024-01-05", some 11⟩]) } =
      HttpResponse.crashed :=
  ⟨rfl, rfl⟩

end StockBackend
